import Mathlib

/- Formal model of the agent orchestration engine in news_swarm.py: the
SwarmAgent tool-call loop (SwarmAgent.run) and the OrchestratorAgent
plan/dispatch/synthesize workflow (OrchestratorAgent.run).  Python dict,
list, str, int, bool and None values that flow through these functions are
modelled by the Json type; the model endpoint and the two registered tool
implementations (search_news, scrape_news_article) are oracles supplied as
functions, with a raised Python exception modelled as Except.error carrying
the exception message. -/

namespace NewsSwarm

/-- JSON-like values, also standing for the Python values that flow through
news_swarm.py.  Object fields model Python dicts with unique keys (the form
json.loads produces); numbers are restricted to integers, which covers every
value the claims touch. -/
inductive Json where
  | null : Json
  | bool (b : Bool) : Json
  | num (n : Int) : Json
  | str (s : String) : Json
  | arr (xs : List Json) : Json
  | obj (fields : List (String × Json)) : Json

/-- Python type name of a modelled value, used inside modelled exception
messages (quotes of the Python messages are dropped). -/
def pyTypeName : Json → String
  | Json.null => "NoneType"
  | Json.bool _ => "bool"
  | Json.num _ => "int"
  | Json.str _ => "str"
  | Json.arr _ => "list"
  | Json.obj _ => "dict"

/-- Field lookup on an object value; a Python dict.get miss (None) is
modelled as Option.none. -/
def getField : Json → String → Option Json
  | Json.obj kvs, k => List.lookup k kvs
  | _, _ => none

/-- Chat messages appended to the conversation inside SwarmAgent.run
(news_swarm.py lines 138-141 and 166-180): the seeded system and user
messages, the assistant function_call echo and the function result. -/
inductive Message where
  | system (content : String) : Message
  | user (content : String) : Message
  | assistantCall (name : String) (arguments : String) : Message
  | functionResult (name : String) (content : String) : Message

/-- Reply of one client.chat.completions.create call as inspected by
SwarmAgent.run: either a reply whose finish_reason is "function_call",
carrying the function name, the raw arguments string and the outcome of
json.loads on that string (Except.error models a raised ValueError), or any
other reply, carrying message.content (taken as a string; the claims never
depend on a None content). -/
inductive ModelReply where
  | final (content : String) : ModelReply
  | functionCall (name : String) (arguments : String)
      (parsedArgs : Except String Json) : ModelReply

/-- Model endpoint oracle: the conversation so far determines the reply;
Except.error models the create call itself raising. -/
def ModelOracle : Type := List Message → Except String ModelReply

/-- Tool implementation oracle for the two registered implementations: given
the function name and the keyword-argument mapping it returns the tool result
after the str() of line 178, or Except.error when the call raises (including
a TypeError from keyword arguments that do not match the signature). -/
def ToolOracle : Type := String → List (String × Json) → Except String String

/-- Success value of SwarmAgent.run (news_swarm.py lines 189-193). -/
def agentData (c : String) : Json :=
  Json.obj [("data", Json.obj [("output", Json.str c)])]

/-- Failure value of SwarmAgent.run (news_swarm.py lines 194-197). -/
def agentErr (e : String) : Json :=
  Json.obj [("error", Json.str ("Error in agent execution: " ++ e))]

/-- System persona message built in SwarmAgent.__init__ (lines 131-133), with
the literal indentation of the source f-string. -/
def mkSystemMessage (name description : String) : String :=
  "You are " ++ name ++ ". " ++ description ++
    "\n        You have access to tools for searching news and analyzing articles.\n        Use these tools to provide accurate and comprehensive news analysis."

/-- Membership in the hard-coded tool_implementations registry that every
SwarmAgent carries (lines 126-129). -/
def registeredTool (name : String) : Bool :=
  name == "search_news" || name == "scrape_news_article"

/-- One tool invocation (lines 161-164): the registry lookup falls back to a
lambda producing an error string for an unknown name; double-star unpacking
of a non-mapping arguments value raises a TypeError before any function is
entered; a registered implementation defers to the tool oracle, which may
itself raise. -/
def invokeTool (tool : ToolOracle) (name : String) (args : Json) :
    Except String String :=
  match args with
  | Json.obj kvs =>
      if registeredTool name then tool name kvs
      else Except.ok ("Error: Function " ++ name ++ " not found")
  | other =>
      Except.error ("TypeError: argument after ** must be a mapping, not " ++
        pyTypeName other)

/-- Body of the while loop of SwarmAgent.run (lines 152-187), given the
current conversation and the pending model reply.  The source loop has no
round bound, so the embedding is driven by fuel: none means the loop is
still running after consuming all fuel, some (Except.ok j) means the loop
exited and the try block returned j, some (Except.error e) means a Python
exception e escaped the loop body into the enclosing except. -/
def agentLoopAux (model : ModelOracle) (tool : ToolOracle) :
    Nat → List Message → ModelReply → Option (Except String Json)
  | _, _, ModelReply.final c => some (Except.ok (agentData c))
  | 0, _, ModelReply.functionCall _ _ _ => none
  | Nat.succ fuel, msgs, ModelReply.functionCall name raw pargs =>
      match pargs with
      | Except.error e => some (Except.error e)
      | Except.ok args =>
          match invokeTool tool name args with
          | Except.error e => some (Except.error e)
          | Except.ok resp =>
              match model (msgs ++ [Message.assistantCall name raw,
                  Message.functionResult name resp]) with
              | Except.error e => some (Except.error e)
              | Except.ok reply =>
                  agentLoopAux model tool fuel
                    (msgs ++ [Message.assistantCall name raw,
                      Message.functionResult name resp]) reply

/-- SwarmAgent.run (lines 135-197): seed the conversation, make the first
model call, run the tool-resolution loop, and convert any raised exception
to the error dictionary of lines 194-197.  none means the unbounded source
loop is still running after the given fuel. -/
def runAgent (model : ModelOracle) (tool : ToolOracle)
    (name description prompt : String) (fuel : Nat) : Option Json :=
  let msgs := [Message.system (mkSystemMessage name description),
    Message.user prompt]
  match model msgs with
  | Except.error e => some (agentErr e)
  | Except.ok reply =>
      match agentLoopAux model tool fuel msgs reply with
      | none => none
      | some (Except.ok j) => some j
      | some (Except.error e) => some (agentErr e)

/-- Outcome of the planning phase of OrchestratorAgent.run (lines 246-252):
the create call raised, or json.loads on the reply content raised a
ValueError, or the content parsed to a Json value. -/
inductive PlanningOutcome where
  | raised (msg : String) : PlanningOutcome
  | unparsable (msg : String) : PlanningOutcome
  | parsed (j : Json) : PlanningOutcome

/-- Failure value of OrchestratorAgent.run (lines 289-292). -/
def orchErr (e : String) : Json :=
  Json.obj [("error", Json.str ("Orchestration error: " ++ e))]

/-- Success value of OrchestratorAgent.run (lines 282-287). -/
def successReport (out : String) (results : List Json) : Json :=
  Json.obj [("data", Json.obj [("output", Json.str out),
    ("analysis_results", Json.arr results)])]

/-- Value of task.get("sub_task") (line 260): the stored value, or None
(Json.null) when the key is absent. -/
def getTask (kvs : List (String × Json)) : Json :=
  (List.lookup "sub_task" kvs).getD Json.null

/-- SubAgentResult dictionary appended at lines 264-268. -/
def mkSubResult (agent : String) (task result : Json) : Json :=
  Json.obj [("agent", Json.str agent), ("task", task), ("result", result)]

/-- One iteration of the dispatch loop (lines 258-268) on one parsed plan
element.  A non-dict element makes task.get raise an AttributeError; a list
or dict agent_name value makes the membership test on the sub_agents dict
raise a TypeError (unhashable); a string agent_name that is a key of the
sub-agent mapping dispatches that agent on the sub_task value; every other
agent_name value (absent, None, bool, int, unknown string) fails the
membership test and the element is skipped.  Sub-agent run functions are
total Json-valued functions, which is faithful because SwarmAgent.run never
raises. -/
def dispatchStep (agents : List (String × (Json → Json))) (task : Json) :
    Except String (Option Json) :=
  match task with
  | Json.obj kvs =>
      match List.lookup "agent_name" kvs with
      | some (Json.arr _) => Except.error "TypeError: unhashable type: list"
      | some (Json.obj _) => Except.error "TypeError: unhashable type: dict"
      | some (Json.str s) =>
          match List.lookup s agents with
          | some f =>
              Except.ok (some (mkSubResult s (getTask kvs) (f (getTask kvs))))
          | none => Except.ok none
      | _ => Except.ok none
  | other =>
      Except.error ("AttributeError: " ++ pyTypeName other ++
        " object has no attribute get")

/-- Dispatch loop over the parsed plan (lines 257-268): results are appended
in plan order; a raised exception aborts the loop (and the run). -/
def dispatch (agents : List (String × (Json → Json))) :
    List Json → Except String (List Json)
  | [] => Except.ok []
  | t :: ts =>
      match dispatchStep agents t with
      | Except.error e => Except.error e
      | Except.ok none => dispatch agents ts
      | Except.ok (some r) => Except.map (fun rs => r :: rs) (dispatch agents ts)

/-- Tolerant wrapping of the parsed plan (lines 253-254): a non-list value is
wrapped into a one-element list. -/
def wrapPlan : Json → List Json
  | Json.arr xs => xs
  | j => [j]

/-- Synthesis oracle: the synthesis create call of lines 276-280 on the
collected results; Except.error models the call raising. -/
def SynthOracle : Type := List Json → Except String String

/-- Dispatch and synthesis phases of OrchestratorAgent.run on an
already-wrapped task list (lines 256-292). -/
def runPlan (agents : List (String × (Json → Json))) (tasks : List Json)
    (synth : SynthOracle) : Json :=
  match dispatch agents tasks with
  | Except.error e => orchErr e
  | Except.ok results =>
      match synth results with
      | Except.error e => orchErr e
      | Except.ok out => successReport out results

/-- OrchestratorAgent.run (lines 233-292): planning, tolerant wrapping,
dispatch, synthesis, with every raised exception converted at the run
boundary to the error dictionary of lines 289-292.  The prompt and the
sub-agent name listing only feed the planning model call and are absorbed
into the planning oracle. -/
def orchestratorRun (agents : List (String × (Json → Json)))
    (planning : PlanningOutcome) (synth : SynthOracle) : Json :=
  match planning with
  | PlanningOutcome.raised e => orchErr e
  | PlanningOutcome.unparsable e => orchErr e
  | PlanningOutcome.parsed j => runPlan agents (wrapPlan j) synth

/-- Value of the analysis_results field inside a run result, when present. -/
def analysisResults (j : Json) : Option Json :=
  match getField j "data" with
  | some d => getField d "analysis_results"
  | none => none

/-- Expected dispatch outcome in plan order: exactly the elements that are
dicts whose agent_name value is a registered agent name contribute one
SubAgentResult each, every other element contributes nothing. -/
def stepResult (agents : List (String × (Json → Json))) (t : Json) :
    Option Json :=
  match t with
  | Json.obj kvs =>
      match List.lookup "agent_name" kvs with
      | some (Json.str s) =>
          match List.lookup s agents with
          | some f => some (mkSubResult s (getTask kvs) (f (getTask kvs)))
          | none => none
      | _ => none
  | _ => none

/-- Results of the resolvable plan elements, in plan order. -/
def resolvedResults (agents : List (String × (Json → Json)))
    (tasks : List Json) : List Json :=
  tasks.filterMap (stepResult agents)

/-- Plan elements on which the dispatch loop cannot raise: dicts whose
agent_name value, if any, is not itself a list or a dict. -/
def goodStep : Json → Bool
  | Json.obj kvs =>
      match List.lookup "agent_name" kvs with
      | some (Json.arr _) => false
      | some (Json.obj _) => false
      | _ => true
  | _ => false

/-- Synthesis oracle that always succeeds with a fixed report. -/
def okSynth : SynthOracle := fun _ => Except.ok "final report"

/-- Synthesis oracle whose create call raises. -/
def failSynth : SynthOracle := fun _ => Except.error "synthesis failed"

/-- Tool oracle whose implementations always succeed with a fixed string. -/
def anyToolOracle : ToolOracle := fun _ _ => Except.ok "tool output"

/-- Model oracle that immediately produces a final message. -/
def finalModel : ModelOracle := fun _ => Except.ok (ModelReply.final "hello")

/-- Raw arguments string of a search_news call (braces escaped). -/
def searchRawArgs : String := "\x7b\"query\": \"ai\"\x7d"

/-- Parsed arguments of a search_news call. -/
def searchArgs : Json := Json.obj [("query", Json.str "ai")]

/-- Model oracle that requests a search_news tool call on every round and
never produces a final message. -/
def alwaysCallModel : ModelOracle := fun _ =>
  Except.ok (ModelReply.functionCall "search_news" searchRawArgs
    (Except.ok searchArgs))

/-- Raw arguments string of an empty keyword mapping (braces escaped). -/
def rawEmptyObj : String := "\x7b\x7d"

/-- Model oracle that first requests a call of the unregistered tool
bogus_tool and, once the conversation has grown, produces a final message. -/
def unknownToolModel : ModelOracle := fun msgs =>
  if msgs.length ≤ 2 then
    Except.ok (ModelReply.functionCall "bogus_tool" rawEmptyObj
      (Except.ok (Json.obj [])))
  else Except.ok (ModelReply.final "done")

/-- Sub-agent run function that always succeeds. -/
def exAgentFn : Json → Json := fun _ => agentData "analysis"

/-- One-agent registry for concrete orchestrator runs. -/
def exAgents : List (String × (Json → Json)) := [("news_searcher", exAgentFn)]

/-- Concrete parsed plan with one resolvable element. -/
def exPlan : Json :=
  Json.arr [Json.obj [("agent_name", Json.str "news_searcher"),
    ("sub_task", Json.str "find ai news")]]

/-- The SubAgentResult produced by dispatching exPlan against exAgents. -/
def exResult : Json :=
  mkSubResult "news_searcher" (Json.str "find ai news") (agentData "analysis")

/-- Empty sub-agent registry. -/
def noAgents : List (String × (Json → Json)) := []

/-- Sub-agent run function used in the ordering witness. -/
def wAgentFn : Json → Json := fun _ => agentData "found it"

/-- Registry with the single agent named searcher. -/
def wAgents : List (String × (Json → Json)) := [("searcher", wAgentFn)]

/-- Parsed plan with one resolvable and one unresolvable element. -/
def wPlan : Json :=
  Json.arr [Json.obj [("agent_name", Json.str "searcher"),
      ("sub_task", Json.str "q")],
    Json.obj [("agent_name", Json.str "ghost"), ("sub_task", Json.str "z")]]

/-- Expected results of dispatching wPlan against wAgents. -/
def wResults : List Json :=
  [mkSubResult "searcher" (Json.str "q") (agentData "found it")]

/-- Sub-agent run function that returns an error dictionary. -/
def errAgentFn : Json → Json := fun _ => Json.obj [("error", Json.str "boom")]

/-- Registry with the single agent named analyzer, which always fails. -/
def errAgents : List (String × (Json → Json)) := [("analyzer", errAgentFn)]

/-- Second plan element dispatched after the failing one. -/
def errTask2 : Json :=
  Json.obj [("agent_name", Json.str "analyzer"), ("sub_task", Json.str "t2")]

/-- Mixed plan: resolvable element, unknown agent name, missing agent_name. -/
def mixedPlanTasks : List Json :=
  [Json.obj [("agent_name", Json.str "searcher"), ("sub_task", Json.str "s1")],
    Json.obj [("agent_name", Json.str "nobody"), ("sub_task", Json.str "s2")],
    Json.obj [("sub_task", Json.str "s3")]]

/-- Helper: a normal exit of the tool-resolution loop always carries the data
dictionary of lines 189-193. -/
theorem agentLoopAux_ok_shape (model : ModelOracle) (tool : ToolOracle) :
    ∀ (fuel : Nat) (msgs : List Message) (reply : ModelReply) (j : Json),
      agentLoopAux model tool fuel msgs reply = some (Except.ok j) →
        ∃ c, j = agentData c := by
  intro fuel
  induction fuel with
  | zero =>
      intro msgs reply j h
      cases reply with
      | final c =>
          simp only [agentLoopAux, Option.some.injEq, Except.ok.injEq] at h
          exact ⟨c, h.symm⟩
      | functionCall nm raw pargs => simp [agentLoopAux] at h
  | succ fuel ih =>
      intro msgs reply j h
      cases reply with
      | final c =>
          simp only [agentLoopAux, Option.some.injEq, Except.ok.injEq] at h
          exact ⟨c, h.symm⟩
      | functionCall nm raw pargs =>
          simp only [agentLoopAux] at h
          cases pargs with
          | error e => simp at h
          | ok args =>
              cases hinv : invokeTool tool nm args with
              | error e => simp [hinv] at h
              | ok resp =>
                  simp only [hinv] at h
                  cases hm : model (msgs ++ [Message.assistantCall nm raw,
                      Message.functionResult nm resp]) with
                  | error e => simp [hm] at h
                  | ok reply2 =>
                      simp only [hm] at h
                      exact ih _ _ _ h

/-- Helper: under the always-calling model oracle the loop body never exits,
whatever the fuel. -/
theorem alwaysCall_loop_never_exits :
    ∀ (fuel : Nat) (msgs : List Message),
      agentLoopAux alwaysCallModel anyToolOracle fuel msgs
        (ModelReply.functionCall "search_news" searchRawArgs
          (Except.ok searchArgs)) = none := by
  intro fuel
  induction fuel with
  | zero => intro msgs; rfl
  | succ fuel ih =>
      intro msgs
      exact ih (msgs ++ [Message.assistantCall "search_news" searchRawArgs,
        Message.functionResult "search_news" "tool output"])

/-- Helper: a dispatch-loop iteration that does not raise produces exactly
the expected per-element outcome. -/
theorem dispatchStep_ok_eq (agents : List (String × (Json → Json)))
    (t : Json) (o : Option Json)
    (h : dispatchStep agents t = Except.ok o) : o = stepResult agents t := by
  cases t with
  | obj kvs =>
      simp only [dispatchStep, stepResult] at *
      cases hl : List.lookup "agent_name" kvs with
      | none =>
          simp only [hl, Except.ok.injEq] at h
          exact h.symm
      | some v =>
          cases v with
          | null => simp only [hl, Except.ok.injEq] at h; exact h.symm
          | bool b => simp only [hl, Except.ok.injEq] at h; exact h.symm
          | num n => simp only [hl, Except.ok.injEq] at h; exact h.symm
          | arr xs => simp [hl] at h
          | obj o2 => simp [hl] at h
          | str s =>
              simp only [hl] at h ⊢
              cases ha : List.lookup s agents with
              | none => simp only [ha, Except.ok.injEq] at h; exact h.symm
              | some f => simp only [ha, Except.ok.injEq] at h; exact h.symm
  | null => simp [dispatchStep] at h
  | bool b => simp [dispatchStep] at h
  | num n => simp [dispatchStep] at h
  | str s => simp [dispatchStep] at h
  | arr xs => simp [dispatchStep] at h

/-- Helper: a dispatch phase that does not raise returns exactly the
resolvable results in plan order. -/
theorem dispatch_ok_eq (agents : List (String × (Json → Json))) :
    ∀ (tasks : List Json) (rs : List Json),
      dispatch agents tasks = Except.ok rs →
        rs = resolvedResults agents tasks := by
  intro tasks
  induction tasks with
  | nil =>
      intro rs h
      simp only [dispatch, Except.ok.injEq] at h
      simp [resolvedResults, ← h]
  | cons t ts ih =>
      intro rs h
      simp only [dispatch] at h
      cases hstep : dispatchStep agents t with
      | error e => simp [hstep] at h
      | ok o =>
          have ho := dispatchStep_ok_eq agents t o hstep
          simp only [hstep] at h
          cases o with
          | none =>
              simp only [resolvedResults, List.filterMap_cons, ← ho]
              exact ih rs h
          | some r =>
              cases hd : dispatch agents ts with
              | error e => simp [hd, Except.map] at h
              | ok rs2 =>
                  simp only [hd, Except.map, Except.ok.injEq] at h
                  simp only [resolvedResults, List.filterMap_cons, ← ho, ← h]
                  have := ih rs2 hd
                  simp [resolvedResults] at this
                  simp [this]

/-- Helper: skipped elements leave the dispatch outcome untouched. -/
theorem dispatch_skip_all (agents : List (String × (Json → Json))) :
    ∀ tasks : List Json,
      (∀ t ∈ tasks, dispatchStep agents t = Except.ok none) →
        dispatch agents tasks = Except.ok [] := by
  intro tasks
  induction tasks with
  | nil => intro h; rfl
  | cons t ts ih =>
      intro h
      simp only [dispatch, h t (by simp)]
      exact ih fun x hx => h x (by simp [hx])

/-- Helper: on a dict element with no list- or dict-valued agent_name, the
dispatch loop cannot raise and computes the expected outcome. -/
theorem dispatchStep_of_good (agents : List (String × (Json → Json)))
    (t : Json) (h : goodStep t = true) :
    dispatchStep agents t = Except.ok (stepResult agents t) := by
  cases t with
  | obj kvs =>
      cases hl : List.lookup "agent_name" kvs with
      | none => simp [dispatchStep, stepResult, hl]
      | some v =>
          cases v with
          | null => simp [dispatchStep, stepResult, hl]
          | bool b => simp [dispatchStep, stepResult, hl]
          | num n => simp [dispatchStep, stepResult, hl]
          | str s =>
              cases ha : List.lookup s agents with
              | none => simp [dispatchStep, stepResult, hl, ha]
              | some f => simp [dispatchStep, stepResult, hl, ha]
          | arr xs => exfalso; simp [goodStep, hl] at h
          | obj o2 => exfalso; simp [goodStep, hl] at h
  | null => simp [goodStep] at h
  | bool b => simp [goodStep] at h
  | num n => simp [goodStep] at h
  | str s => simp [goodStep] at h
  | arr xs => simp [goodStep] at h

/-- C1: every terminating SwarmAgent.run returns a dictionary that is either
the data dictionary or an error dictionary with a populated error field, and
OrchestratorAgent.run always returns the success report or such an error
dictionary: every exception injected through the model, tool, planning or
synthesis oracles is converted at the run boundary, never propagated. -/
theorem run_always_returns_result_value (model : ModelOracle)
    (tool : ToolOracle) (name description prompt : String) (fuel : Nat)
    (agents : List (String × (Json → Json))) (planning : PlanningOutcome)
    (synth : SynthOracle) (j : Json)
    (h : runAgent model tool name description prompt fuel = some j) :
    ((∃ c, j = agentData c) ∨ (∃ e, j = agentErr e)) ∧
      ((∃ out rs, orchestratorRun agents planning synth =
          successReport out rs) ∨
        (∃ e, orchestratorRun agents planning synth = orchErr e)) := by
  constructor
  · simp only [runAgent] at h
    cases hm : model [Message.system (mkSystemMessage name description),
        Message.user prompt] with
    | error e =>
        simp only [hm, Option.some.injEq] at h
        exact Or.inr ⟨e, h.symm⟩
    | ok reply =>
        simp only [hm] at h
        cases hl : agentLoopAux model tool fuel
            [Message.system (mkSystemMessage name description),
              Message.user prompt] reply with
        | none => simp [hl] at h
        | some r =>
            cases r with
            | ok j2 =>
                simp only [hl, Option.some.injEq] at h
                exact Or.inl (h ▸ agentLoopAux_ok_shape model tool fuel _ _ j2 hl)
            | error e =>
                simp only [hl, Option.some.injEq] at h
                exact Or.inr ⟨e, h.symm⟩
  · cases planning with
    | raised e => exact Or.inr ⟨e, rfl⟩
    | unparsable e => exact Or.inr ⟨e, rfl⟩
    | parsed pj =>
        cases hd : dispatch agents (wrapPlan pj) with
        | error e =>
            refine Or.inr ⟨e, ?_⟩
            simp [orchestratorRun, runPlan, hd]
        | ok rs =>
            cases hs : synth rs with
            | error e =>
                refine Or.inr ⟨e, ?_⟩
                simp [orchestratorRun, runPlan, hd, hs]
            | ok out =>
                refine Or.inl ⟨out, rs, ?_⟩
                simp [orchestratorRun, runPlan, hd, hs]

/-- C1 witness at concrete inputs: a one-round final reply and a planning
call that raises. -/
theorem run_always_returns_result_value_witness :
    ((∃ c, agentData "hello" = agentData c) ∨
        (∃ e, agentData "hello" = agentErr e)) ∧
      ((∃ out rs, orchestratorRun noAgents (PlanningOutcome.raised "down")
          okSynth = successReport out rs) ∨
        (∃ e, orchestratorRun noAgents (PlanningOutcome.raised "down") okSynth =
          orchErr e)) :=
  run_always_returns_result_value finalModel anyToolOracle "n" "d" "p" 1
    noAgents (PlanningOutcome.raised "down") okSynth (agentData "hello") rfl

/-- C2: the tool-resolution loop of SwarmAgent.run enforces no round bound at
all: under a model endpoint that requests a tool call on every round the run
never returns, however much fuel it is given, instead of stopping at a
configured bound with a RoundLimitExceeded error value. -/
theorem tool_loop_has_no_round_bound (name description prompt : String) :
    ∀ fuel : Nat,
      runAgent alwaysCallModel anyToolOracle name description prompt fuel =
        none := by
  intro fuel
  simp only [runAgent, alwaysCallModel]
  rw [alwaysCall_loop_never_exits]

/-- C3 fails on the code: with a completed dispatch phase and a synthesis
call that raises, OrchestratorAgent.run returns the bare error dictionary,
which carries no analysis_results field at all. -/
theorem synthesis_failure_drops_results_cex :
    dispatch exAgents (wrapPlan exPlan) = Except.ok [exResult] ∧
      orchestratorRun exAgents (PlanningOutcome.parsed exPlan) failSynth =
        orchErr "synthesis failed" ∧
      analysisResults (orchestratorRun exAgents (PlanningOutcome.parsed exPlan)
        failSynth) = none :=
  ⟨rfl, rfl, rfl⟩

/-- C3 amended: when the dispatch phase completes, a successful synthesis
returns the report carrying the full ordered dispatch results, while a
raising synthesis makes the run return the error dictionary, which drops the
collected results. -/
theorem analysis_results_by_synthesis_outcome
    (agents : List (String × (Json → Json))) (j : Json) (synth : SynthOracle)
    (results : List Json) (out e : String)
    (hd : dispatch agents (wrapPlan j) = Except.ok results) :
    (synth results = Except.ok out →
        orchestratorRun agents (PlanningOutcome.parsed j) synth =
          successReport out results) ∧
      (synth results = Except.error e →
        orchestratorRun agents (PlanningOutcome.parsed j) synth =
          orchErr e) := by
  constructor <;> intro hs <;> simp [orchestratorRun, runPlan, hd, hs]

/-- C3 amended witness: on the successful-synthesis side the report carries
the dispatch results. -/
theorem analysis_results_by_synthesis_outcome_witness :
    orchestratorRun exAgents (PlanningOutcome.parsed exPlan) okSynth =
      successReport "final report" [exResult] :=
  (analysis_results_by_synthesis_outcome exAgents exPlan okSynth [exResult]
    "final report" "unused" rfl).1 rfl

/-- C4 fails on the code: when the model requests the unregistered tool
bogus_tool and then produces a final message, SwarmAgent.run returns the
plain data dictionary, not an error value. -/
theorem unknown_tool_returns_no_error_value_cex :
    runAgent unknownToolModel anyToolOracle "News Searcher" "Finds news"
        "find ai news" 1 = some (agentData "done") ∧
      getField (agentData "done") "error" = none :=
  ⟨rfl, rfl⟩

/-- C4 amended: an unknown tool name is recovered locally, not returned as an
error value: the fallback string naming the missing function is recorded as
the tool result in the conversation, the loop continues, and the run
completes with the next final reply of the model instead of aborting. -/
theorem unknown_tool_recovered_locally (model : ModelOracle)
    (tool : ToolOracle) (toolName raw : String) (kvs : List (String × Json))
    (name description prompt : String) (fuel : Nat) (c : String)
    (h1 : registeredTool toolName = false)
    (hm1 : model [Message.system (mkSystemMessage name description),
        Message.user prompt] =
      Except.ok (ModelReply.functionCall toolName raw
        (Except.ok (Json.obj kvs))))
    (hm2 : model ([Message.system (mkSystemMessage name description),
        Message.user prompt] ++
        [Message.assistantCall toolName raw,
          Message.functionResult toolName
            ("Error: Function " ++ toolName ++ " not found")]) =
      Except.ok (ModelReply.final c)) :
    runAgent model tool name description prompt (fuel + 1) =
      some (agentData c) := by
  simp only [runAgent, hm1, agentLoopAux, invokeTool, h1, Bool.false_eq_true,
    if_false, hm2]

/-- C4 amended witness at the concrete unknown-tool oracle. -/
theorem unknown_tool_recovered_locally_witness :
    runAgent unknownToolModel anyToolOracle "A" "B" "t" 1 =
      some (agentData "done") :=
  unknown_tool_recovered_locally unknownToolModel anyToolOracle "bogus_tool"
    rawEmptyObj [] "A" "B" "t" 0 "done" rfl rfl rfl

/-- C5: a planning reply that parses to a single JSON object is wrapped into
the one-element plan list and the run proceeds to dispatch on it. -/
theorem object_plan_treated_as_singleton
    (agents : List (String × (Json → Json))) (synth : SynthOracle)
    (kvs : List (String × Json)) :
    wrapPlan (Json.obj kvs) = [Json.obj kvs] ∧
      orchestratorRun agents (PlanningOutcome.parsed (Json.obj kvs)) synth =
        runPlan agents [Json.obj kvs] synth :=
  ⟨rfl, rfl⟩

/-- C6 fails on the code: a parsed plan element that is not a dict is not
silently skipped: task.get raises an AttributeError and the whole run aborts
with an error value instead of dispatching nothing for it. -/
theorem non_object_step_aborts_dispatch_cex :
    dispatch noAgents [Json.num 42] =
        Except.error "AttributeError: int object has no attribute get" ∧
      orchestratorRun noAgents (PlanningOutcome.parsed (Json.arr [Json.num 42]))
          okSynth =
        orchErr "AttributeError: int object has no attribute get" :=
  ⟨rfl, rfl⟩

/-- C6 amended: on a parsed plan whose elements are all dicts (with no list-
or dict-valued agent_name), the dispatch phase never aborts and produces, in
plan order, exactly one SubAgentResult per element whose agent_name is a key
of the sub-agent mapping; every other element is skipped and contributes
nothing. -/
theorem dispatch_exactly_resolvable_in_order
    (agents : List (String × (Json → Json))) (tasks : List Json)
    (h : ∀ t ∈ tasks, goodStep t = true) :
    dispatch agents tasks = Except.ok (resolvedResults agents tasks) := by
  induction tasks with
  | nil => rfl
  | cons t ts ih =>
      have hstep := dispatchStep_of_good agents t (h t (by simp))
      have hts := ih fun x hx => h x (by simp [hx])
      simp only [dispatch, hstep, resolvedResults, List.filterMap_cons]
      cases hsr : stepResult agents t with
      | none => simpa [resolvedResults] using hts
      | some r => simp [resolvedResults] at hts; simp [hts, Except.map]

/-- C6 amended witness on a mixed three-element plan. -/
theorem dispatch_exactly_resolvable_in_order_witness :
    dispatch wAgents mixedPlanTasks =
      Except.ok (resolvedResults wAgents mixedPlanTasks) :=
  dispatch_exactly_resolvable_in_order wAgents mixedPlanTasks (by decide)

/-- C7 fails on the code: a plan whose only element is unresolvable but not a
dict does not proceed to synthesis on empty results: the run aborts with an
error value carrying no analysis_results. -/
theorem non_object_unresolvable_plan_aborts_cex :
    orchestratorRun noAgents
        (PlanningOutcome.parsed (Json.arr [Json.str "foo"])) okSynth =
        orchErr "AttributeError: str object has no attribute get" ∧
      analysisResults (orchestratorRun noAgents
        (PlanningOutcome.parsed (Json.arr [Json.str "foo"])) okSynth) = none :=
  ⟨rfl, rfl⟩

/-- C7 amended: a plan with zero elements, or whose elements are all dicts
skipped by the dispatch membership test, still reaches the synthesis call on
an empty results list; a successful synthesis then yields the report whose
analysis_results is empty, rather than the run failing early. -/
theorem skippable_plan_still_synthesizes
    (agents : List (String × (Json → Json))) (j : Json) (synth : SynthOracle)
    (out : String)
    (hs : ∀ t ∈ wrapPlan j, dispatchStep agents t = Except.ok none)
    (ho : synth [] = Except.ok out) :
    orchestratorRun agents (PlanningOutcome.parsed j) synth =
      successReport out [] := by
  have hd : dispatch agents (wrapPlan j) = Except.ok [] :=
    dispatch_skip_all agents (wrapPlan j) hs
  simp [orchestratorRun, runPlan, hd, ho]

/-- C7 amended witness on the empty plan. -/
theorem skippable_plan_still_synthesizes_witness :
    orchestratorRun noAgents (PlanningOutcome.parsed (Json.arr [])) okSynth =
      successReport "final report" [] :=
  skippable_plan_still_synthesizes noAgents (Json.arr []) okSynth
    "final report" (by intro t ht; cases ht) rfl

/-- C8: whenever OrchestratorAgent.run returns the success report, its
analysis_results list is exactly the list of results of the resolvable plan
elements, in plan order. -/
theorem analysis_results_in_plan_order
    (agents : List (String × (Json → Json))) (j : Json) (synth : SynthOracle)
    (out : String) (rs : List Json)
    (h : orchestratorRun agents (PlanningOutcome.parsed j) synth =
      successReport out rs) :
    rs = resolvedResults agents (wrapPlan j) := by
  simp only [orchestratorRun, runPlan] at h
  cases hd : dispatch agents (wrapPlan j) with
  | error e =>
      simp only [hd] at h
      exact absurd h (by simp [orchErr, successReport])
  | ok rs2 =>
      simp only [hd] at h
      cases hsy : synth rs2 with
      | error e =>
          simp only [hsy] at h
          exact absurd h (by simp [orchErr, successReport])
      | ok out2 =>
          simp only [hsy] at h
          simp [successReport] at h
          rw [← h.2]
          exact dispatch_ok_eq agents (wrapPlan j) rs2 hd

/-- C8 witness on a two-element plan with one unresolvable element. -/
theorem analysis_results_in_plan_order_witness :
    wResults = resolvedResults wAgents (wrapPlan wPlan) :=
  analysis_results_in_plan_order wAgents wPlan okSynth "final report"
    wResults rfl

/-- C9: a sub-agent whose run returns an error dictionary does not abort the
dispatch phase: the error-carrying SubAgentResult is appended at its plan
position and the remaining plan elements are still dispatched. -/
theorem subagent_error_does_not_abort_dispatch
    (agents : List (String × (Json → Json))) (agentName : String)
    (subTask : Json) (f : Json → Json) (e : String) (rest : List Json)
    (hf : List.lookup agentName agents = some f)
    (he : f subTask = Json.obj [("error", Json.str e)]) :
    dispatch agents
        (Json.obj [("agent_name", Json.str agentName),
          ("sub_task", subTask)] :: rest) =
      Except.map
        (fun rs => mkSubResult agentName subTask
          (Json.obj [("error", Json.str e)]) :: rs)
        (dispatch agents rest) := by
  have h1 : dispatchStep agents
      (Json.obj [("agent_name", Json.str agentName),
        ("sub_task", subTask)]) =
      Except.ok (some (mkSubResult agentName subTask
        (Json.obj [("error", Json.str e)]))) := by
    simp [dispatchStep, List.lookup, getTask, hf, he]
  simp only [dispatch, h1]

/-- C9 witness: the failing agent is dispatched twice; the first error result
is appended and the second element is still dispatched. -/
theorem subagent_error_does_not_abort_dispatch_witness :
    dispatch errAgents
        (Json.obj [("agent_name", Json.str "analyzer"),
          ("sub_task", Json.str "t1")] :: [errTask2]) =
      Except.map
        (fun rs => mkSubResult "analyzer" (Json.str "t1")
          (Json.obj [("error", Json.str "boom")]) :: rs)
        (dispatch errAgents [errTask2]) :=
  subagent_error_does_not_abort_dispatch errAgents "analyzer" (Json.str "t1")
    errAgentFn "boom" [errTask2] rfl rfl

/-- C10: a plan element that is a dict without an agent_name key, or whose
agent_name is None, is skipped exactly like one with an unresolvable name:
no sub-agent is invoked for it, nothing is appended, and the dispatch of the
remaining plan is unchanged. -/
theorem missing_agent_name_step_skipped
    (agents : List (String × (Json → Json))) (kvs : List (String × Json))
    (rest : List Json)
    (h : List.lookup "agent_name" kvs = none ∨
      List.lookup "agent_name" kvs = some Json.null) :
    dispatch agents (Json.obj kvs :: rest) = dispatch agents rest := by
  have h1 : dispatchStep agents (Json.obj kvs) = Except.ok none := by
    cases h with
    | inl h2 => simp [dispatchStep, h2]
    | inr h2 => simp [dispatchStep, h2]
  simp only [dispatch, h1]

/-- C10 witness on a dict element carrying only a sub_task key. -/
theorem missing_agent_name_step_skipped_witness :
    dispatch noAgents (Json.obj [("sub_task", Json.str "x")] :: []) =
      dispatch noAgents [] :=
  missing_agent_name_step_skipped noAgents [("sub_task", Json.str "x")] []
    (Or.inl rfl)

end NewsSwarm
